import Mathlib

/-!
Verification of the click-counter example (src/src/main.rs).

The source offers four versions of a browser click counter; `main` calls
`version_1_with_single_button`, while `version_4_with_async_channel_and_reducer_pattern`
contains the channel/reducer core the specification describes.  We embed the
message type, the reducer step and loop of version 4 (its counter is a Rust
`i32`, modelled as `Int` with explicit two's-complement wrap-around), the
bounded channel contract, the click handlers, `main`'s dispatch, and the
behaviour of version 1.
-/

/-- Message type of src/src/main.rs: `enum Msg { Increment, Decrement }`. -/
inductive Msg where
  | Increment : Msg
  | Decrement : Msg
deriving DecidableEq

/-- Smallest value of a Rust `i32` (the type of the counter in the source). -/
def i32min : Int := -2147483648

/-- Largest value of a Rust `i32`. -/
def i32max : Int := 2147483647

/-- Two's-complement reduction into the `i32` range: the behaviour of Rust
`i32` addition and subtraction on overflow in release builds. -/
def wrap32 (n : Int) : Int := (n + 2147483648) % 4294967296 - 2147483648

/-- One step of the reducer in `version_4_with_async_channel_and_reducer_pattern`:
`match msg { Msg::Increment => count += 1, Msg::Decrement => count -= 1 }`,
where `count` is an `i32`. -/
def reduce (count : Int) (msg : Msg) : Int :=
  match msg with
  | Msg.Increment => wrap32 (count + 1)
  | Msg.Decrement => wrap32 (count - 1)

/-- The display string the reducer writes after each step:
`format!("count is {count}")`. -/
def render (count : Int) : String := "count is " ++ toString count

/-- The reducer loop of version 4: starting from a counter value, process the
delivered messages in order; returns the final counter and the list of render
calls, in order.  In the source: `let mut count = 0; while let Some(msg) =
message_receiver.next().await { ...; p.set_text_content(...) }`. -/
def reducerLoop (count : Int) (msgs : List Msg) : Int × List String :=
  match msgs with
  | [] => (count, [])
  | m :: rest =>
    let c := reduce count m
    let r := reducerLoop c rest
    (r.1, render c :: r.2)

/-- The specification's "sum of +1 per Increment and -1 per Decrement" over a
message sequence (spec wording, for comparison with the reducer loop). -/
def netSum (msgs : List Msg) : Int :=
  match msgs with
  | [] => 0
  | Msg.Increment :: rest => netSum rest + 1
  | Msg.Decrement :: rest => netSum rest - 1

/-- Modelled from the spec: the bounded mpsc channel created by
`futures::channel::mpsc::channel(4)` in version 4.  The channel implementation
lives in the external `futures` crate, not in this repository, so it is
modelled from the spec's contract: a FIFO queue of capacity 4 with
non-blocking, drop-on-full send and a single receiver. -/
structure Channel where
  queue : List Msg
deriving DecidableEq

/-- The bound passed to `futures::channel::mpsc::channel(4)`. -/
def capacity : Nat := 4

/-- Modelled from the spec: `try_send` — enqueue at the back if the queue is
below capacity; otherwise leave the channel unchanged and report failure
(`Err(ChannelFull)`, here `false`).  Never blocks. -/
def trySend (ch : Channel) (m : Msg) : Channel × Bool :=
  if ch.queue.length < capacity then (⟨ch.queue ++ [m]⟩, true) else (ch, false)

/-- Modelled from the spec: `receive` — dequeue the oldest message, if any. -/
def receive (ch : Channel) : Option (Msg × Channel) :=
  match ch.queue with
  | [] => none
  | m :: rest => some (m, ⟨rest⟩)

/-- Repeatedly `receive`, at most `fuel` times, collecting the dequeued
messages in order. -/
def receiveAll (fuel : Nat) (ch : Channel) : List Msg :=
  match fuel with
  | 0 => []
  | Nat.succ f =>
    match receive ch with
    | none => []
    | some p => p.1 :: receiveAll f p.2

/-- Perform a sequence of `trySend`s; returns the final channel and the log of
attempts, each paired with whether it succeeded. -/
def sendAll (ch : Channel) (msgs : List Msg) : Channel × List (Msg × Bool) :=
  match msgs with
  | [] => (ch, [])
  | m :: rest =>
    let s := trySend ch m
    let r := sendAll s.1 rest
    (r.1, (m, s.2) :: r.2)

/-- The successfully enqueued messages of a send log, in order. -/
def accepted (log : List (Msg × Bool)) : List Msg :=
  (log.filter (fun e => e.2)).map (fun e => e.1)

/-- The number of failed sends in a send log. -/
def failedCount (log : List (Msg × Bool)) : Nat :=
  (log.filter (fun e => !e.2)).length

/-- The two buttons both versions create. -/
inductive Button where
  | increment : Button
  | decrement : Button
deriving DecidableEq

/-- The message each button's version-4 click handler sends:
`Msg::Increment` for "+1", `Msg::Decrement` for "-1". -/
def messageFor (b : Button) : Msg :=
  match b with
  | Button.increment => Msg.Increment
  | Button.decrement => Msg.Decrement

/-- A version-4 click handler: exactly one `try_send` of the button's message,
with the `Result` discarded (`message_sender.try_send(...)`, result unused).
Returns the channel after the handler runs and the list of send attempts the
handler made. -/
def onClick (b : Button) (ch : Channel) : Channel × List Msg :=
  ((trySend ch (messageFor b)).1, [messageFor b])

/-- The four versions defined in src/src/main.rs. -/
inductive Version where
  | v1 : Version
  | v2 : Version
  | v3 : Version
  | v4 : Version
deriving DecidableEq

/-- The version `fn main()` actually calls: `version_1_with_single_button()`. -/
def mainVersion : Version := Version.v1

/-- Which versions create the mpsc channel and spawn the reducer loop: only
`version_4_with_async_channel_and_reducer_pattern` does. -/
def usesChannelReducer (v : Version) : Bool :=
  match v with
  | Version.v4 => true
  | _ => false

/-- `fn main()` takes no arguments. -/
def mainArgCount : Nat := 0

/-- The UI state of `version_1_with_single_button`: the `i32` counter and the
text content of the `p` element. -/
structure V1State where
  count : Int
  display : String
deriving DecidableEq

/-- Initial state of version 1: `State { count: 0 }` and
`p.set_text_content(Some("Click the button to update this"))`. -/
def v1Init : V1State := { count := 0, display := "Click the button to update this" }

/-- Which buttons received a click listener in version 1: only the "+1"
button; the "-1" listener is commented out in the source. -/
def v1HasClickListener (b : Button) : Bool :=
  match b with
  | Button.increment => true
  | Button.decrement => false

/-- Effect of a click in version 1: the "+1" handler does
`state.count += 1; p.set_text_content(Some(&state.count.to_string()))` (bare
decimal string, no prefix); the "-1" button has no handler, so a click on it
changes nothing. -/
def v1Click (b : Button) (s : V1State) : V1State :=
  match b with
  | Button.increment =>
    let c := wrap32 (s.count + 1)
    { count := c, display := toString c }
  | Button.decrement => s

/-- The elements version 1 appends to the body, in order: (tag, initial text).
In the source: `body.append_child(&increment)`, then `&p`, then `&decrement`. -/
def v1AppendedElements : List (String × String) :=
  [("button", "+1"), ("p", "Click the button to update this"), ("button", "-1")]

/-! ## Helper lemmas -/

/-- `wrap32` is the identity on the `i32` range. -/
theorem wrap32_eq_self (n : Int) (h1 : i32min ≤ n) (h2 : n ≤ i32max) :
    wrap32 n = n := by
  simp only [wrap32, i32min, i32max] at *
  omega

/-- `wrap32` always lands in the `i32` range. -/
theorem wrap32_mem_range (n : Int) : i32min ≤ wrap32 n ∧ wrap32 n ≤ i32max := by
  simp only [wrap32, i32min, i32max]
  omega

/-- Wrapping composes with addition: reducing an already-reduced value shifted
by `b` agrees with reducing the shift of the original. -/
theorem wrap32_wrap32_add (a b : Int) : wrap32 (wrap32 a + b) = wrap32 (a + b) := by
  simp only [wrap32]
  omega

/-- The final counter of the reducer loop is the two's-complement reduction of
the start value plus the net sum of the messages. -/
theorem reducerLoop_fst (msgs : List Msg) : ∀ c : Int, i32min ≤ c → c ≤ i32max →
    (reducerLoop c msgs).1 = wrap32 (c + netSum msgs) := by
  induction msgs with
  | nil =>
    intro c h1 h2
    simp [reducerLoop, netSum, wrap32_eq_self c h1 h2]
  | cons m rest ih =>
    intro c h1 h2
    cases m with
    | Increment =>
      have hr := wrap32_mem_range (c + 1)
      have h := ih (wrap32 (c + 1)) hr.1 hr.2
      simp only [reducerLoop, reduce, netSum, h, wrap32_wrap32_add]
      have : c + 1 + netSum rest = c + (netSum rest + 1) := by ring
      rw [this]
    | Decrement =>
      have hr := wrap32_mem_range (c - 1)
      have h := ih (wrap32 (c - 1)) hr.1 hr.2
      simp only [reducerLoop, reduce, netSum, h, wrap32_wrap32_add]
      have : c - 1 + netSum rest = c + (netSum rest - 1) := by ring
      rw [this]

/-- The net sum of `n` Increments is `n`. -/
theorem netSum_replicate_inc (n : Nat) :
    netSum (List.replicate n Msg.Increment) = (n : Int) := by
  induction n with
  | zero => simp [netSum]
  | succ k ih => simp [List.replicate_succ, netSum, ih]

/-- Receiving as many times as the queue is long yields the whole queue in
order. -/
theorem receiveAll_queue : ∀ l : List Msg, receiveAll l.length ⟨l⟩ = l := by
  intro l
  induction l with
  | nil => simp [receiveAll]
  | cons m rest ih => simp [receiveAll, receive, ih]

/-- After any send sequence, the queue is the original queue followed by the
accepted messages, in order. -/
theorem sendAll_queue (msgs : List Msg) : ∀ ch : Channel,
    (sendAll ch msgs).1.queue = ch.queue ++ accepted (sendAll ch msgs).2 := by
  induction msgs with
  | nil => intro ch; simp [sendAll, accepted]
  | cons m rest ih =>
    intro ch
    by_cases h : ch.queue.length < capacity
    · simp [sendAll, trySend, h, accepted, List.filter_cons, List.map_cons,
        ih ⟨ch.queue ++ [m]⟩]
    · simp [sendAll, trySend, h, accepted, List.filter_cons, ih ch]

/-! ## Claim theorems -/

/-- Claim C1: the reducer loop starts at 0, applies Increment as +1 and
Decrement as -1, and renders "count is {counter}" after each message; on the
delivered sequence [Increment, Decrement, Increment] the renders are exactly
"count is 1", "count is 0", "count is 1", in order, ending at counter 1. -/
theorem reducer_renders_inc_dec_inc :
    reducerLoop 0 [Msg.Increment, Msg.Decrement, Msg.Increment] =
      (1, ["count is 1", "count is 0", "count is 1"]) := by
  decide

/-- Claim C2 (amended): for every fully drained message sequence whose net sum
of +1 per Increment and -1 per Decrement lies in the `i32` range, the final
counter equals that net sum; in particular three Increments render
"count is 1", "count is 2", "count is 3" and one Decrement renders
"count is -1". -/
theorem final_count_eq_netSum :
    (∀ msgs : List Msg, i32min ≤ netSum msgs → netSum msgs ≤ i32max →
      (reducerLoop 0 msgs).1 = netSum msgs) ∧
    reducerLoop 0 [Msg.Increment, Msg.Increment, Msg.Increment] =
      (3, ["count is 1", "count is 2", "count is 3"]) ∧
    reducerLoop 0 [Msg.Decrement] = (-1, ["count is -1"]) := by
  refine ⟨?_, by decide, by decide⟩
  intro msgs h1 h2
  rw [reducerLoop_fst msgs 0 (by decide) (by decide)]
  rw [Int.zero_add]
  exact wrap32_eq_self _ h1 h2

/-- Witness for C2's amended theorem at the sequence [Increment, Decrement]. -/
theorem final_count_eq_netSum_witness :
    (reducerLoop 0 [Msg.Increment, Msg.Decrement]).1 =
      netSum [Msg.Increment, Msg.Decrement] :=
  final_count_eq_netSum.1 [Msg.Increment, Msg.Decrement] (by decide) (by decide)

/-- Counterexample to claim C2 as stated: draining 2^31 Increments from 0
leaves the `i32` counter at -2147483648, not at the net sum 2147483648 (the
addition wraps). -/
theorem final_count_overflow_cex :
    (reducerLoop 0 (List.replicate 2147483648 Msg.Increment)).1 ≠
      netSum (List.replicate 2147483648 Msg.Increment) := by
  rw [reducerLoop_fst (List.replicate 2147483648 Msg.Increment) 0 (by decide) (by decide)]
  rw [netSum_replicate_inc 2147483648]
  decide

/-- Claim C3: for every counter value `n` (an `i32`), an Increment immediately
followed by a Decrement returns the counter to `n`. -/
theorem inc_then_dec_roundtrip (n : Int) (h1 : i32min ≤ n) (h2 : n ≤ i32max) :
    reduce (reduce n Msg.Increment) Msg.Decrement = n := by
  simp only [reduce, wrap32, i32min, i32max] at *
  omega

/-- Witness for C3 at n = 5. -/
theorem inc_then_dec_roundtrip_witness :
    reduce (reduce 5 Msg.Increment) Msg.Decrement = 5 :=
  inc_then_dec_roundtrip 5 (by decide) (by decide)

/-- Claim C4: with zero messages the counter stays 0 and the reducer loop
performs no render call. -/
theorem no_messages_no_render : reducerLoop 0 [] = (0, []) := rfl

/-- Claim C5: the channel has capacity 4; for any five messages sent before
the reducer dequeues anything, at least one send fails (and is discarded,
without blocking). -/
theorem five_sends_one_fails (m1 m2 m3 m4 m5 : Msg) :
    1 ≤ failedCount (sendAll ⟨[]⟩ [m1, m2, m3, m4, m5]).2 := by
  simp [sendAll, trySend, capacity, failedCount, List.filter_cons]

/-- Claim C6: for every send sequence, draining the channel yields exactly the
successfully enqueued messages in the order they were enqueued (FIFO, no
reordering, no coalescing). -/
theorem fifo_delivery (msgs : List Msg) :
    receiveAll (sendAll ⟨[]⟩ msgs).1.queue.length (sendAll ⟨[]⟩ msgs).1 =
      accepted (sendAll ⟨[]⟩ msgs).2 := by
  have hq := sendAll_queue msgs ⟨[]⟩
  simp only [List.nil_append] at hq
  calc receiveAll (sendAll ⟨[]⟩ msgs).1.queue.length (sendAll ⟨[]⟩ msgs).1
      = (sendAll ⟨[]⟩ msgs).1.queue := receiveAll_queue (sendAll ⟨[]⟩ msgs).1.queue
    _ = accepted (sendAll ⟨[]⟩ msgs).2 := hq

/-- Claim C7: each click produces exactly one send attempt of the button's
message, and when the channel is full the failure is ignored: the handler
returns normally and changes no other state. -/
theorem click_sends_once_ignores_full (b : Button) (ch : Channel) :
    (onClick b ch).2 = [messageFor b] ∧
    (capacity ≤ ch.queue.length → (onClick b ch).1 = ch) := by
  refine ⟨rfl, ?_⟩
  intro h
  simp [onClick, trySend, Nat.not_lt.mpr h]

/-- Witness for C7: a click on "+1" with the channel full leaves the channel
unchanged. -/
theorem click_sends_once_ignores_full_witness :
    (onClick Button.increment
        ⟨[Msg.Increment, Msg.Increment, Msg.Increment, Msg.Increment]⟩).1 =
      ⟨[Msg.Increment, Msg.Increment, Msg.Increment, Msg.Increment]⟩ :=
  (click_sends_once_ignores_full Button.increment
    ⟨[Msg.Increment, Msg.Increment, Msg.Increment, Msg.Increment]⟩).2 (by decide)

/-- Counterexample to claim C8 as stated: the entry point does not perform the
channel/reducer setup — `main` calls `version_1_with_single_button`, which
creates no channel and spawns no reducer. -/
theorem main_channel_setup_cex : usesChannelReducer mainVersion = false := rfl

/-- Claim C8 (amended): the entry point takes no arguments and performs the
one-time setup of version 1 (single-button direct closure capture); the
channel/reducer setup described in §2 lives only in
`version_4_with_async_channel_and_reducer_pattern`, which `main` never calls. -/
theorem main_runs_version1 :
    mainVersion = Version.v1 ∧ usesChannelReducer Version.v1 = false ∧
    usesChannelReducer Version.v4 = true ∧ mainArgCount = 0 :=
  ⟨rfl, rfl, rfl, rfl⟩

/-- Counterexample to claim C9 as stated: the counter is an `i32`, not an
unbounded integer — at n = 2147483647 an Increment does not transition to
n + 1 (it wraps to -2147483648). -/
theorem i32_overflow_cex :
    reduce i32max Msg.Increment ≠ i32max + 1 ∧
    reduce i32max Msg.Increment = i32min := by
  refine ⟨by decide, by decide⟩

/-- Claim C9 (amended): the counter's state space is the `i32` range; away
from the bounds Increment transitions n to n + 1 and Decrement transitions n
to n - 1 exactly; at i32max an Increment wraps to i32min and at i32min a
Decrement wraps to i32max (two's-complement, release-build semantics), so the
arithmetic is not exact at the bounds. -/
theorem counter_transitions_i32 :
    (∀ n : Int, i32min ≤ n → n < i32max → reduce n Msg.Increment = n + 1) ∧
    (∀ n : Int, i32min < n → n ≤ i32max → reduce n Msg.Decrement = n - 1) ∧
    reduce i32max Msg.Increment = i32min ∧
    reduce i32min Msg.Decrement = i32max := by
  refine ⟨?_, ?_, by decide, by decide⟩
  · intro n h1 h2
    simp only [reduce, wrap32, i32min, i32max] at *
    omega
  · intro n h1 h2
    simp only [reduce, wrap32, i32min, i32max] at *
    omega

/-- Witness for C9's amended theorem at n = 0. -/
theorem counter_transitions_i32_witness :
    reduce 0 Msg.Increment = 1 ∧ reduce 0 Msg.Decrement = -1 :=
  ⟨counter_transitions_i32.1 0 (by decide) (by decide),
   counter_transitions_i32.2.1 0 (by decide) (by decide)⟩

/-- Counterexample to claim C10 as stated: version 1's "+1" click does not
unconditionally increment the count by 1 — the count is an `i32`, and at
count = 2147483647 a click wraps it to -2147483648, not to count + 1. -/
theorem v1_click_overflow_cex :
    (v1Click Button.increment ⟨i32max, "2147483647"⟩).count ≠ i32max + 1 ∧
    (v1Click Button.increment ⟨i32max, "2147483647"⟩).count = i32min := by
  refine ⟨by decide, by decide⟩

/-- Claim C10 (amended): in the version `main` executes (version 1), only the
"+1" button has a click listener; a click on it increments the `i32` count by
1 whenever the count is below i32max (at i32max it wraps to i32min,
release-build two's-complement semantics) and sets the display to the bare
decimal string of the new count (no "count is " prefix), while the "-1"
button is appended to the body but has no handler, so clicking it changes
neither counter nor display. -/
theorem version1_behavior :
    v1HasClickListener Button.increment = true ∧
    v1HasClickListener Button.decrement = false ∧
    ("button", "-1") ∈ v1AppendedElements ∧
    (∀ s : V1State, v1Click Button.decrement s = s) ∧
    (∀ s : V1State, i32min ≤ s.count → s.count < i32max →
      (v1Click Button.increment s).count = s.count + 1 ∧
      (v1Click Button.increment s).display = toString (s.count + 1)) ∧
    (∀ s : V1State, s.count = i32max →
      (v1Click Button.increment s).count = i32min) := by
  refine ⟨rfl, rfl, by decide, fun s => rfl, ?_, ?_⟩
  · intro s h1 h2
    have hw : wrap32 (s.count + 1) = s.count + 1 := by
      simp only [wrap32, i32min, i32max] at *
      omega
    constructor
    · simp [v1Click, hw]
    · simp [v1Click, hw]
  · intro s h
    simp only [v1Click, h, i32max, i32min, wrap32]
    decide

/-- Witness for C10: from the initial state of version 1, a "+1" click sets
the display to "1" and a "-1" click changes nothing. -/
theorem version1_behavior_witness :
    (v1Click Button.increment v1Init).count = 1 ∧
    v1Click Button.decrement v1Init = v1Init ∧
    (v1Click Button.increment ⟨i32max, "2147483647"⟩).count = i32min := by
  refine ⟨?_, version1_behavior.2.2.2.1 v1Init,
    version1_behavior.2.2.2.2.2 ⟨i32max, "2147483647"⟩ rfl⟩
  have h := (version1_behavior.2.2.2.2.1 v1Init (by decide) (by decide)).1
  simpa [v1Init] using h
